import Mathlib

set_option maxRecDepth 4096

/-
Verification of the two request handlers in src/index.js
(getDashboardPrompt and getSummaryAnalysis): the context builder,
the ordered model-fallback executor, the output normalizer, the
fallback responder, request validation and the response payload.

Modelling conventions:
  - JS strings are Lean `String`; `undefined`/absent fields are `Option`.
  - JS numbers carrying defect intensities are modelled as `Int`
    (the assessments use integral intensities; `toFixed(1)` on an
    integral value renders as the integer followed by ".0").
  - The external generation capability is an oracle assigning to each
    model identifier the outcome of its attempt: either a structurally
    valid response carrying the text at candidates[0].content.parts[0]
    (`GenOutcome.ok`) or any failure, i.e. a thrown error, a malformed
    response shape or a safety block (`GenOutcome.err`).
  - Each handler returns its JSON payload together with the list of
    model identifiers actually invoked, in invocation order.
-/

/-- Character class of the JavaScript regular expression `\s`
(whitespace), used by `generatedText.split(/\s+/)` in src/index.js
line 127. -/
def isJsWhitespace (c : Char) : Bool :=
  c == ' ' || c == '\t' || c == '\n' || c == '\r' ||
  c.toNat == 0x0b || c.toNat == 0x0c || c.toNat == 0xa0 || c.toNat == 0xfeff ||
  c.toNat == 0x1680 || (0x2000 ≤ c.toNat && c.toNat ≤ 0x200a) ||
  c.toNat == 0x2028 || c.toNat == 0x2029 || c.toNat == 0x202f || c.toNat == 0x205f ||
  c.toNat == 0x3000

/-- State machine for JavaScript `String.prototype.split(/\s+/)`:
`some cur` means a (possibly empty) piece is being accumulated
(in reverse); `none` means the scanner is inside a whitespace run
that has already emitted the piece before it. A run at the start or
the end of the string yields an empty piece, as in JavaScript;
interior runs yield none. -/
def splitWsAux : Option (List Char) → List Char → List String
  | none, [] => [("")]
  | some cur, [] => [String.mk cur.reverse]
  | none, c :: cs =>
      if isJsWhitespace c then splitWsAux none cs
      else splitWsAux (some [c]) cs
  | some cur, c :: cs =>
      if isJsWhitespace c then String.mk cur.reverse :: splitWsAux none cs
      else splitWsAux (some (c :: cur)) cs

/-- JavaScript `text.split(/\s+/)` from src/index.js line 127. -/
def jsSplitWs (s : String) : List String :=
  splitWsAux (some []) s.data

/-- Output normalizer of the single-recommendation endpoint,
src/index.js lines 127-130: split on whitespace runs and, when the
piece count exceeds 150, keep the first 150 pieces joined by single
spaces and append an ellipsis marker; otherwise return the input
unchanged. -/
def normalize150 (text : String) : String :=
  let words := jsSplitWs text
  if 150 < words.length then String.intercalate (" ") (words.take 150) ++ ("...")
  else text

/-- JavaScript `key.split('-')` on the character list: split at every
dash, keeping empty pieces (src/index.js line 55). -/
def splitOnDashChars : List Char → List (List Char)
  | [] => [[]]
  | c :: cs =>
      match splitOnDashChars cs with
      | [] => [[]]
      | p :: ps => if c = '-' then [] :: p :: ps else (c :: p) :: ps

/-- JavaScript `key.split('-')` from src/index.js line 55. -/
def jsSplitDash (s : String) : List String :=
  (splitOnDashChars s.data).map (fun cs => String.mk cs)

/-- One entry of the `prioritizedVirtues` array of a request body. -/
structure Virtue where
  virtue : String
  virtueId : String
  defectIntensity : Int
deriving DecidableEq

/-- One entry of the `analyses` array of a synthesis request body. -/
structure AnalysisItem where
  virtue : String
  analysis : String
deriving DecidableEq

/-- Body of a single-recommendation request once it is known to be an
object (src/index.js lines 27-33); every field may be absent. -/
structure DashboardBody where
  assessmentSummary : Option String
  prioritizedVirtues : Option (List Virtue)
  stageProgress : Option (List (String × String))
  recentProgress : Option String
  isFirstTime : Option Bool
deriving DecidableEq

/-- Body of a synthesis request once it is known to be an object
(src/index.js line 195); a field is `some` exactly when the
corresponding JSON field is an array. -/
structure SummaryBody where
  analyses : Option (List AnalysisItem)
  prioritizedVirtues : Option (List Virtue)
deriving DecidableEq

/-- JavaScript `x.toFixed(1)` for an integral number `x`. -/
def toFixed1 (n : Int) : String :=
  toString n ++ (".0")

/-- One line of the prioritized-virtue listing, src/index.js line 50:
the 1-based rank, the virtue name and the display score
`10 - defectIntensity` rendered to one decimal place. -/
def virtueLine (i : Nat) (v : Virtue) : String :=
  toString (i + 1) ++ (". ") ++ v.virtue ++ (" (Score: ")
    ++ toFixed1 (10 - v.defectIntensity) ++ (")")

/-- The `virtueList` value of src/index.js lines 49-51: the joined
listing, or the placeholder when `prioritizedVirtues` is absent or
the joined listing is the empty string (empty array). -/
def virtueListStr (pv : Option (List Virtue)) : String :=
  let s := match pv with
    | none => ("")
    | some l => String.intercalate ("\n") (l.enum.map (fun p => virtueLine p.1 p.2))
  if s = ("") then ("No assessment data available") else s

/-- The `virtueId` component destructured from a stage-progress key,
src/index.js line 55: the first piece of the dash-split. -/
def entityIdOfKey (key : String) : String :=
  (jsSplitDash key).headD ("")

/-- The stage name chosen on src/index.js line 57: "Dismantling" for
token "1", "Building" for token "2", "Practicing" for every other
token, including a missing second piece. -/
def stageNameOfKey (key : String) : String :=
  match (jsSplitDash key)[1]? with
  | some s =>
      if s = ("1") then ("Dismantling")
      else if s = ("2") then ("Building")
      else ("Practicing")
  | none => ("Practicing")

/-- The virtue name looked up on src/index.js lines 56-58:
`prioritizedVirtues?.find(v => v.virtueId == virtueId)?.virtue`,
falling back to "Unknown" when there is no match (or the matched
name is the empty string, which is falsy in JavaScript). -/
def virtueNameOf (pv : Option (List Virtue)) (vid : String) : String :=
  match (pv.getD []).find? (fun v => v.virtueId == vid) with
  | some v => if v.virtue = ("") then ("Unknown") else v.virtue
  | none => ("Unknown")

/-- One line of the progress narrative, src/index.js line 58. -/
def progressLine (pv : Option (List Virtue)) (key status : String) : String :=
  virtueNameOf pv (entityIdOfKey key) ++ (" - ") ++ stageNameOfKey key ++ (": ") ++ status

/-- The `progressSummary` value of src/index.js lines 53-59: the
joined narrative over `Object.entries(stageProgress)`, or the
placeholder when `stageProgress` is absent. -/
def progressSummaryStr (pv : Option (List Virtue))
    (sp : Option (List (String × String))) : String :=
  match sp with
  | none => ("No progress data available")
  | some entries =>
      String.intercalate ("\n") (entries.map (fun e => progressLine pv e.1 e.2))

/-- The `recentUpdate` value of src/index.js line 61:
`recentProgress || 'No recent updates'`. -/
def recentUpdateStr (ru : Option String) : String :=
  match ru with
  | none => ("No recent updates")
  | some s => if s = ("") then ("No recent updates") else s

/-- The assessment-summary interpolation of src/index.js line 95:
`assessmentSummary || 'Assessment completed'`. -/
def assessmentSummaryStr (asum : Option String) : String :=
  match asum with
  | none => ("Assessment completed")
  | some s => if s = ("") then ("Assessment completed") else s

/-- The full prompt template of the single-recommendation endpoint,
src/index.js lines 84-118, with the five interpolations
(`assessmentSummary`, `virtueList`, `progressSummary`,
`recentUpdate`, `isFirstTime`) substituted. A JavaScript boolean
interpolates as "true" or "false". -/
def buildDashboardPrompt (asum : Option String) (pv : Option (List Virtue))
    (sp : Option (List (String × String))) (ru : Option String) (ift : Bool) : String :=
  ("\nAs a virtue development coach, provide personalized next-step guidance for a user viewing their virtue dashboard. Use warm, encouraging language with \"you\" to address them directly.\n\n**STAGE DEFINITIONS:**\n- Discovery: Complete virtue assessment to identify growth areas\n- Dismantling: Recognize and work through character defects that block virtue\n- Building: Develop understanding and practice of the virtue itself  \n- Practicing: Apply virtue consistently in daily life (only after completing Dismantling and Building)\n\n**USER DATA:**\n\nAssessment Summary: ")
  ++ assessmentSummaryStr asum
  ++ ("\n\nPrioritized Virtues (lowest scores need most work):\n")
  ++ virtueListStr pv
  ++ ("\n\nCurrent Stage Progress:\n")
  ++ progressSummaryStr pv sp
  ++ ("\n\nRecent Progress: ")
  ++ recentUpdateStr ru
  ++ ("\n\nFirst-time user: ")
  ++ (if ift then ("true") else ("false"))
  ++ ("\n\n**GUIDANCE RULES:**\n1. **PRIMARY FOCUS**: Always direct attention to the LOWEST-SCORING virtue (highest priority for development) from the prioritized list\n2. If first-time/empty dashboard: Encourage starting with #1 lowest-scoring virtue\x27s Dismantling stage\n3. **Structure**: Lead with next step recommendation, then briefly acknowledge progress if relevant\n4. Recommend completing all Dismantling stages before Building, or work virtue-by-virtue (Dismantling → Building)\n5. Discourage Practicing until both Dismantling and Building are complete for that virtue\n6. STRICT LIMIT: Maximum 150 words total\n7. End with a specific actionable next step focusing on the lowest-scoring virtue\n\n**PRIORITY**: Focus on the #1 virtue (lowest score) unless it\x27s completely finished (both Dismantling and Building completed).\n\nGenerate a personalized, encouraging message directing them to their next virtue development step. Lead with the recommended action for the lowest-scoring virtue, keep it concise and under 150 words:")

/-- The `priorityList` value of src/index.js line 210 (same line
format as the single-recommendation virtue listing). -/
def priorityListStr (pv : List Virtue) : String :=
  String.intercalate ("\n") (pv.enum.map (fun p => virtueLine p.1 p.2))

/-- The `combinedAnalyses` value of src/index.js line 211. -/
def combinedAnalysesStr (an : List AnalysisItem) : String :=
  String.intercalate ("\n\n")
    (an.map (fun a => ("- ") ++ a.virtue ++ (": ") ++ a.analysis))

/-- The full prompt template of the synthesis endpoint, src/index.js
lines 235-252 (the template literal keeps its 10-space indentation). -/
def buildSummaryPrompt (an : List AnalysisItem) (pv : List Virtue) : String :=
  ("\n          As an expert virtuous coach who empathizes with those in recovery, synthesize the following 12 individual virtue analyses into a single, holistic summary for a practitioner to guide virtue growth. The response should be approximately 200 words. Use \"you\" familiar language to address the user directly.\n\n          **INPUT DATA:**\n\n          **1. User\x27s Prioritized Virtue List (from highest to lowest priority for development):**\n          ")
  ++ priorityListStr pv
  ++ ("\n\n          **2. Individual Virtue Analyses:**\n          ")
  ++ combinedAnalysesStr an
  ++ ("\n\n          **TASKS:**\n          1.  **Identify Overarching Themes:** Analyze all 12 reports to find common patterns or root causes. For example, do issues with Honesty, Integrity, and Responsibility all point to a core challenge with accountability? Or do struggles with Patience and Self-Control indicate a broader issue with emotional regulation?\n          2.  **State the Primary Growth Area:** Begin with a direct statement identifying the user\x27s most significant area for development, referencing the top 2-3 virtues from the priority list that scored the lowest. The lower the score the greater the development need.\n          3.  **Commend Strengths:** Briefly acknowledge any virtues where the user shows relative strength or balance. Virtues with scores above 7.0 can be mentioned here.\n          4.  **Provide a Synthesis:** Briefly explain how the identified themes connect across multiple virtues.\n          5.  **Conclude with a Strategic Recommendation:** Offer a high-level recommendation or a key question for the practitioner to focus on with the user that addresses the core theme.\n          6.  Keep the entire response under 300 words.")

/-- Outcome of one generation attempt against one model candidate:
`ok text` is a structurally valid response (`response.candidates &&
response.candidates[0] && response.candidates[0].content` holds)
carrying `candidates[0].content.parts[0].text`; `err msg` is any
failure (thrown error, malformed shape, safety block), which the loop
of src/index.js lines 140-144 records and recovers from. -/
inductive GenOutcome where
  | ok (text : String)
  | err (msg : String)
deriving DecidableEq

/-- Whether an outcome is a failure. -/
def GenOutcome.isErr : GenOutcome → Bool
  | .ok _ => false
  | .err _ => true

/-- State of the model-fallback loop after it finishes: the loop
variables `promptText`/`summaryText`, `lastError` and
`successfulModel` of src/index.js lines 44-46 and 206-208, plus the
list of candidates actually invoked, in order. -/
structure ExecState where
  promptText : String
  lastError : Option String
  successfulModel : String
  attempted : List String
deriving DecidableEq

/-- The model-fallback loop of src/index.js lines 64-145 (and
214-271), over an explicit list of (candidate, outcome) pairs:
on the first structurally valid response it stores the normalized
text and the candidate identifier and breaks; on a failure it stores
the error and continues. `norm` is the post-success normalization
(the 150-word truncation on the single-recommendation endpoint, the
identity on the synthesis endpoint). -/
def runModels (norm : String → String) : Option String → List (String × GenOutcome) → ExecState
  | le, [] => ⟨(""), le, (""), []⟩
  | le, (m, .ok t) :: _ => ⟨norm t, le, m, [m]⟩
  | le, (m, .err e) :: rest =>
      let s := runModels norm (some e) rest
      { s with attempted := m :: s.attempted }

/-- The error held in `lastError` after a run of the loop over the
given pairs, starting from `le`. -/
def lastErrAcc : Option String → List (String × GenOutcome) → Option String
  | le, [] => le
  | le, (_, o) :: rest =>
      lastErrAcc (match o with | .ok _ => le | .err e => some e) rest

/-- The fixed candidate list of src/index.js lines 36-42 and 198-204,
identical on both endpoints. -/
def modelNames : List String :=
  [("gemini-2.5-flash-lite"), ("gemini-2.0-flash-lite"), ("gemini-1.5-flash-lite"),
   ("gemini-1.5-flash"), ("gemini-pro")]

/-- The `topVirtue` value of src/index.js line 150:
`prioritizedVirtues?.[0]?.virtue || 'your priority virtue'`. -/
def topVirtueName (pv : Option (List Virtue)) : String :=
  let n := match pv with
    | none => ("")
    | some l => match l.head? with
      | none => ("")
      | some v => v.virtue
  if n = ("") then ("your priority virtue") else n

/-- The deterministic fallback text of the single-recommendation
endpoint, src/index.js line 151. -/
def fallbackPrompt (pv : Option (List Virtue)) (ift : Bool) : String :=
  ("Welcome to your virtue development journey! ")
  ++ (if ift then
        ("Start by working on ") ++ topVirtueName pv
          ++ (" in the Dismantling stage to begin recognizing character defects.")
      else
        ("Continue your progress by focusing on the next stage of ")
          ++ topVirtueName pv ++ ("."))
  ++ (" Click the stage buttons to begin your reflection.")

/-- The deterministic fallback text of the synthesis endpoint,
src/index.js line 276: the names of the first two prioritized
virtues joined by " and " are interpolated into a fixed template. -/
def fallbackSummary (pv : List Virtue) : String :=
  ("A full summary could not be generated at this time. Based on the data, the primary areas for development appear to be ")
  ++ String.intercalate (" and ") ((pv.take 2).map (fun v => v.virtue))
  ++ (". Focusing on the root causes of challenges in these areas is a recommended next step.")

/-- The 400 message of src/index.js line 24. -/
def invalidDashMsg : String := ("Invalid request body")

/-- The 400 message of src/index.js line 192. -/
def invalidSummaryMsg : String :=
  ("Invalid request body: Expected analyses and prioritizedVirtues arrays.")

/-- JSON payload of a single-recommendation response, with the HTTP
status: the 200 path sends `{prompt, model, success: true}`
(src/index.js lines 154-158), the 400 path `{error}` (line 24);
absent fields are rendered as `none` / the empty string / `false`. -/
structure DashResponse where
  status : Nat
  errorMsg : Option String
  prompt : String
  model : String
  success : Bool
deriving DecidableEq

/-- JSON payload of a synthesis response, with the HTTP status
(src/index.js lines 192 and 279-283). -/
structure SummaryResponse where
  status : Nat
  errorMsg : Option String
  summary : String
  model : String
  success : Bool
deriving DecidableEq

/-- The single-recommendation handler, src/index.js lines 21-158:
validation (line 23), the model-fallback loop with the 150-word
normalizer, the `!promptText` fallback substitution (lines 147-152)
and the `successfulModel || 'fallback'` model field (line 156).
The request body is `none` when missing or not an object; `gen` is
the generation oracle. Returns the payload and the invoked models. -/
def getDashboardPrompt (body : Option DashboardBody) (gen : String → GenOutcome) :
    DashResponse × List String :=
  match body with
  | none => (⟨400, some invalidDashMsg, (""), (""), false⟩, [])
  | some b =>
      let st := runModels normalize150 none (modelNames.map (fun m => (m, gen m)))
      let ift := b.isFirstTime.getD false
      let promptText :=
        if st.promptText = ("") then fallbackPrompt b.prioritizedVirtues ift
        else st.promptText
      let model :=
        if st.successfulModel = ("") then ("fallback") else st.successfulModel
      (⟨200, none, promptText, model, true⟩, st.attempted)

/-- The synthesis handler, src/index.js lines 189-283: validation
(line 191, requiring both `analyses` and `prioritizedVirtues` to be
arrays), the model-fallback loop with no output truncation, the
`!summaryText` fallback substitution (lines 273-277) and the
`successfulModel || 'fallback'` model field (line 281). -/
def getSummaryAnalysis (body : Option SummaryBody) (gen : String → GenOutcome) :
    SummaryResponse × List String :=
  match body with
  | none => (⟨400, some invalidSummaryMsg, (""), (""), false⟩, [])
  | some b =>
      match b.analyses, b.prioritizedVirtues with
      | some _an, some pv =>
          let st := runModels (fun t => t) none (modelNames.map (fun m => (m, gen m)))
          let summaryText :=
            if st.promptText = ("") then fallbackSummary pv else st.promptText
          let model :=
            if st.successfulModel = ("") then ("fallback") else st.successfulModel
          (⟨200, none, summaryText, model, true⟩, st.attempted)
      | _, _ => (⟨400, some invalidSummaryMsg, (""), (""), false⟩, [])

/-- Concrete prioritized-virtue list used by the closed instances. -/
def virtuesEx : List Virtue :=
  [⟨("Honesty"), ("1"), 8⟩, ⟨("Patience"), ("2"), 6⟩]

/-- Concrete single-recommendation request body used by the closed
instances. -/
def dashBodyEx : DashboardBody :=
  ⟨some ("Completed assessment"), some virtuesEx,
   some [(("1-1"), ("completed"))], some ("Reflected today"), some false⟩

/-- Concrete analyses array used by the closed instances. -/
def analysesEx : List AnalysisItem :=
  [⟨("Honesty"), ("Struggles with candor under stress.")⟩]

/-- Oracle on which every model attempt fails. -/
def genAllErr : String → GenOutcome := fun _ => GenOutcome.err ("network error")

/-- Oracle on which the first two candidates fail and the third
returns a structurally valid response. -/
def genThirdOk : String → GenOutcome := fun m =>
  if m = ("gemini-1.5-flash-lite") then GenOutcome.ok ("Focus on Honesty today.")
  else GenOutcome.err ("quota exceeded")

/-- Oracle on which the first candidate returns a structurally valid
response whose generated text is the empty string. -/
def genFirstEmpty : String → GenOutcome := fun _ => GenOutcome.ok ("")

/-- Concrete all-failure outcome pairs for the first two candidates. -/
def preEx : List (String × GenOutcome) :=
  [(("gemini-2.5-flash-lite"), GenOutcome.err ("quota exceeded")),
   (("gemini-2.0-flash-lite"), GenOutcome.err ("safety block"))]

/-- Concrete outcome pairs for the last two candidates. -/
def postEx : List (String × GenOutcome) :=
  [(("gemini-1.5-flash"), GenOutcome.err ("timeout")),
   (("gemini-pro"), GenOutcome.err ("server overloaded"))]

/-- Appending strings appends their character lists. -/
theorem strDataAppend (a b : String) : (a ++ b).data = a.data ++ b.data := rfl

/-- Rebuilding a string from its character list is the identity. -/
theorem strMkData (s : String) : String.mk s.data = s := rfl

/-- The dash split never returns an empty list of pieces. -/
theorem splitOnDashChars_ne_nil : ∀ l : List Char, splitOnDashChars l ≠ [] := by
  intro l
  cases l with
  | nil => simp [splitOnDashChars]
  | cons c cs =>
      simp only [splitOnDashChars]
      cases splitOnDashChars cs with
      | nil => simp
      | cons p ps =>
          by_cases h : c = '-' <;> simp [h]

/-- A dash-free character list is a single piece. -/
theorem splitOnDashChars_no_dash : ∀ l : List Char, ('-' : Char) ∉ l → splitOnDashChars l = [l] := by
  intro l
  induction l with
  | nil => intro _; rfl
  | cons c cs ih =>
      intro h
      have hc : ¬ (c = '-') := by
        intro hc
        exact h (hc ▸ List.mem_cons_self c cs)
      have hcs : ('-' : Char) ∉ cs := fun hm => h (List.mem_cons_of_mem _ hm)
      simp only [splitOnDashChars, ih hcs]
      simp [hc]

/-- Splitting at the first dash after a dash-free block peels off the
block as the first piece. -/
theorem splitOnDashChars_concat : ∀ l r : List Char, ('-' : Char) ∉ l →
    splitOnDashChars (l ++ '-' :: r) = l :: splitOnDashChars r := by
  intro l
  induction l with
  | nil =>
      intro r _
      simp only [List.nil_append, splitOnDashChars]
      obtain ⟨p, ps, hp⟩ : ∃ p ps, splitOnDashChars r = p :: ps := by
        cases hh : splitOnDashChars r with
        | nil => exact absurd hh (splitOnDashChars_ne_nil r)
        | cons p ps => exact ⟨p, ps, rfl⟩
      rw [hp]
      simp
  | cons c cs ih =>
      intro r h
      have hc : ¬ (c = '-') := by
        intro hc
        exact h (hc ▸ List.mem_cons_self c cs)
      have hcs : ('-' : Char) ∉ cs := fun hm => h (List.mem_cons_of_mem _ hm)
      simp only [List.cons_append, splitOnDashChars, List.append_eq]
      rw [ih r hcs]
      simp [hc]

/-- Splitting `entityId ++ "-" ++ stage` on dashes yields exactly the
two components, when neither contains a dash. -/
theorem jsSplitDash_pair (eid st : String)
    (h1 : ('-' : Char) ∉ eid.data) (h2 : ('-' : Char) ∉ st.data) :
    jsSplitDash (eid ++ ("-") ++ st) = [eid, st] := by
  unfold jsSplitDash
  have hd : (eid ++ ("-") ++ st).data = eid.data ++ '-' :: st.data := by
    show (eid.data ++ [('-' : Char)]) ++ st.data = eid.data ++ '-' :: st.data
    rw [List.append_assoc]
    rfl
  rw [hd, splitOnDashChars_concat eid.data st.data h1, splitOnDashChars_no_dash st.data h2]
  simp only [List.map_cons, List.map_nil, strMkData]

/-- The projection of the mapped oracle pairs onto candidates is the
candidate list itself. -/
theorem map_fst_pairs (gen : String → GenOutcome) (l : List String) :
    (l.map (fun m => (m, gen m))).map Prod.fst = l := by
  induction l with
  | nil => rfl
  | cons m rest ih => simp only [List.map_cons]; rw [ih]

/-- Composed form of `map_fst_pairs`. -/
theorem map_fst_comp_pairs (gen : String → GenOutcome) (l : List String) :
    List.map (Prod.fst ∘ fun m => (m, gen m)) l = l := by
  induction l with
  | nil => rfl
  | cons m rest ih =>
      simp only [List.map_cons, Function.comp_apply]
      rw [ih]

/-- Lifting an all-failure oracle to the mapped pairs. -/
theorem pairs_all_err (gen : String → GenOutcome) (l : List String)
    (h : ∀ m ∈ l, (gen m).isErr = true) :
    ∀ p ∈ l.map (fun m => (m, gen m)), p.2.isErr = true := by
  intro p hp
  simp only [List.mem_map] at hp
  obtain ⟨m, hm, rfl⟩ := hp
  exact h m hm

/-- When every listed attempt fails the loop ends with no text, no
successful model, the accumulated last error, and every candidate
attempted in order. -/
theorem runModels_all_err (norm : String → String) :
    ∀ (l : List (String × GenOutcome)) (le : Option String),
      (∀ p ∈ l, p.2.isErr = true) →
      runModels norm le l = ⟨(""), lastErrAcc le l, (""), l.map Prod.fst⟩ := by
  intro l
  induction l with
  | nil => intro le _h; rfl
  | cons p rest ih =>
      intro le h
      obtain ⟨m, o⟩ := p
      cases o with
      | ok t =>
          have hh := h ⟨m, GenOutcome.ok t⟩ (List.mem_cons_self _ _)
          simp [GenOutcome.isErr] at hh
      | err e =>
          have hrest : ∀ q ∈ rest, q.2.isErr = true :=
            fun q hq => h q (List.mem_cons_of_mem _ hq)
          simp only [runModels]
          rw [ih (some e) hrest]
          rfl

/-- When every attempt before `m` fails and `m` returns a valid
response with text `t`, the loop ends with the normalized text, `m`
as the successful model, and exactly the failed candidates followed
by `m` attempted; nothing after `m` is attempted. -/
theorem runModels_first_ok (norm : String → String) :
    ∀ (pre : List (String × GenOutcome)) (le : Option String) (m t : String)
      (post : List (String × GenOutcome)),
      (∀ p ∈ pre, p.2.isErr = true) →
      runModels norm le (pre ++ (m, GenOutcome.ok t) :: post)
        = ⟨norm t, lastErrAcc le pre, m, pre.map Prod.fst ++ [m]⟩ := by
  intro pre
  induction pre with
  | nil => intro le m t post _h; rfl
  | cons p rest ih =>
      intro le m t post h
      obtain ⟨m', o⟩ := p
      cases o with
      | ok t' =>
          have hh := h ⟨m', GenOutcome.ok t'⟩ (List.mem_cons_self _ _)
          simp [GenOutcome.isErr] at hh
      | err e =>
          have hrest : ∀ q ∈ rest, q.2.isErr = true :=
            fun q hq => h q (List.mem_cons_of_mem _ hq)
          rw [List.cons_append]
          show ({ runModels norm (some e) (rest ++ (m, GenOutcome.ok t) :: post) with
                  attempted :=
                    m' :: (runModels norm (some e) (rest ++ (m, GenOutcome.ok t) :: post)).attempted }
                  : ExecState) = _
          rw [ih (some e) m t post hrest]
          rfl

/-- The accumulated error after a run whose final attempt failed with
`e` is exactly `e`. -/
theorem lastErrAcc_concat : ∀ (l : List (String × GenOutcome)) (le : Option String) (m e : String),
    lastErrAcc le (l ++ [(m, GenOutcome.err e)]) = some e := by
  intro l
  induction l with
  | nil => intro le m e; rfl
  | cons p rest ih =>
      intro le m e
      obtain ⟨m', o⟩ := p
      cases o <;> simp only [List.cons_append, lastErrAcc] <;> apply ih

/-- The normalizer never maps a non-empty text to the empty string. -/
theorem normalize150_ne_empty (t : String) (h : t ≠ ("")) : normalize150 t ≠ ("") := by
  show (if 150 < (jsSplitWs t).length then
          String.intercalate (" ") ((jsSplitWs t).take 150) ++ ("...")
        else t) ≠ ("")
  by_cases hlen : 150 < (jsSplitWs t).length
  · rw [if_pos hlen]
    intro hc
    have hlen2 := congrArg String.length hc
    rw [String.length_append] at hlen2
    have h3 : (("...") : String).length = 3 := rfl
    have h0 : (("") : String).length = 0 := rfl
    rw [h3, h0] at hlen2
    omega
  · rw [if_neg hlen]
    exact h

/-- Every candidate identifier in the fixed list is non-empty. -/
theorem mem_modelNames_ne_empty (m : String) (h : m ∈ modelNames) : m ≠ ("") := by
  simp only [modelNames, List.mem_cons, List.not_mem_nil, or_false] at h
  rcases h with rfl | rfl | rfl | rfl | rfl <;> decide

/-- Single-recommendation handler on total exhaustion: 200 with the
deterministic fallback text, the sentinel model and every candidate
attempted. -/
theorem dash_all_err (b : DashboardBody) (gen : String → GenOutcome)
    (h : ∀ m ∈ modelNames, (gen m).isErr = true) :
    getDashboardPrompt (some b) gen
      = (⟨200, none, fallbackPrompt b.prioritizedVirtues (b.isFirstTime.getD false),
          ("fallback"), true⟩, modelNames) := by
  simp only [getDashboardPrompt]
  rw [runModels_all_err normalize150 (modelNames.map (fun m => (m, gen m))) none
      (pairs_all_err gen modelNames h)]
  simp [map_fst_pairs, map_fst_comp_pairs]

/-- Synthesis handler on total exhaustion: 200 with the deterministic
fallback summary, the sentinel model and every candidate attempted. -/
theorem summary_all_err (an : List AnalysisItem) (pv : List Virtue)
    (gen : String → GenOutcome)
    (h : ∀ m ∈ modelNames, (gen m).isErr = true) :
    getSummaryAnalysis (some ⟨some an, some pv⟩) gen
      = (⟨200, none, fallbackSummary pv, ("fallback"), true⟩, modelNames) := by
  simp only [getSummaryAnalysis]
  rw [runModels_all_err (fun t => t) (modelNames.map (fun m => (m, gen m))) none
      (pairs_all_err gen modelNames h)]
  simp [map_fst_pairs, map_fst_comp_pairs]

/-- Single-recommendation handler when the attempts before `m` fail
and `m` returns a valid response with non-empty text `t`: 200 with
the truncated text and `m` as the model; nothing after `m` is
invoked. -/
theorem dash_first_ok (b : DashboardBody) (gen : String → GenOutcome)
    (pre post : List String) (m t : String)
    (hsplit : modelNames = pre ++ m :: post)
    (hpre : ∀ m' ∈ pre, (gen m').isErr = true)
    (hm : gen m = GenOutcome.ok t) (ht : t ≠ ("")) :
    getDashboardPrompt (some b) gen
      = (⟨200, none, normalize150 t, m, true⟩, pre ++ [m]) := by
  have hmem : m ∈ modelNames := by
    rw [hsplit]
    exact List.mem_append_right _ (List.mem_cons_self _ _)
  have hmne : m ≠ ("") := mem_modelNames_ne_empty m hmem
  have htn : normalize150 t ≠ ("") := normalize150_ne_empty t ht
  simp only [getDashboardPrompt]
  rw [hsplit, List.map_append, List.map_cons, hm]
  rw [runModels_first_ok normalize150 (pre.map (fun m' => (m', gen m'))) none m t
      (post.map (fun m' => (m', gen m'))) (pairs_all_err gen pre hpre)]
  simp [map_fst_pairs, map_fst_comp_pairs, htn, hmne]

/-- Synthesis handler when the attempts before `m` fail and `m`
returns a valid response with non-empty text `t`: 200 with the text
unmodified and `m` as the model; nothing after `m` is invoked. -/
theorem summary_first_ok (an : List AnalysisItem) (pv : List Virtue)
    (gen : String → GenOutcome) (pre post : List String) (m t : String)
    (hsplit : modelNames = pre ++ m :: post)
    (hpre : ∀ m' ∈ pre, (gen m').isErr = true)
    (hm : gen m = GenOutcome.ok t) (ht : t ≠ ("")) :
    getSummaryAnalysis (some ⟨some an, some pv⟩) gen
      = (⟨200, none, t, m, true⟩, pre ++ [m]) := by
  have hmem : m ∈ modelNames := by
    rw [hsplit]
    exact List.mem_append_right _ (List.mem_cons_self _ _)
  have hmne : m ≠ ("") := mem_modelNames_ne_empty m hmem
  simp only [getSummaryAnalysis]
  rw [hsplit, List.map_append, List.map_cons, hm]
  rw [runModels_first_ok (fun t => t) (pre.map (fun m' => (m', gen m'))) none m t
      (post.map (fun m' => (m', gen m'))) (pairs_all_err gen pre hpre)]
  simp [map_fst_pairs, map_fst_comp_pairs, ht, hmne]

/-- C3: for every sequence of per-candidate generation outcomes the
executor tries the candidates strictly in the given order, returns
the (normalized) text and the identifier of the first candidate
whose response is structurally valid, and invokes no candidate after
the first success: the attempted list is exactly the failing prefix
followed by the succeeding candidate. -/
theorem executor_first_success_in_order (norm : String → String) (le : Option String)
    (pre : List (String × GenOutcome)) (m t : String) (post : List (String × GenOutcome))
    (hpre : ∀ p ∈ pre, p.2.isErr = true) :
    (runModels norm le (pre ++ (m, GenOutcome.ok t) :: post)).successfulModel = m ∧
    (runModels norm le (pre ++ (m, GenOutcome.ok t) :: post)).promptText = norm t ∧
    (runModels norm le (pre ++ (m, GenOutcome.ok t) :: post)).attempted
      = pre.map Prod.fst ++ [m] := by
  rw [runModels_first_ok norm pre le m t post hpre]
  exact ⟨rfl, rfl, rfl⟩

/-- Closed instance of C3 at outcomes [fail, fail, success]: the
third candidate is reported and the fourth and fifth are never
invoked. -/
theorem executor_first_success_in_order_witness :
    (∀ p ∈ preEx, p.2.isErr = true) ∧
    ((runModels (fun s => s) none
        (preEx ++ (("gemini-1.5-flash-lite"), GenOutcome.ok ("Focus on Honesty today.")) :: postEx)).successfulModel
        = ("gemini-1.5-flash-lite") ∧
     (runModels (fun s => s) none
        (preEx ++ (("gemini-1.5-flash-lite"), GenOutcome.ok ("Focus on Honesty today.")) :: postEx)).promptText
        = ("Focus on Honesty today.") ∧
     (runModels (fun s => s) none
        (preEx ++ (("gemini-1.5-flash-lite"), GenOutcome.ok ("Focus on Honesty today.")) :: postEx)).attempted
        = preEx.map Prod.fst ++ [("gemini-1.5-flash-lite")]) :=
  ⟨by decide,
   executor_first_success_in_order (fun s => s) none preEx ("gemini-1.5-flash-lite")
     ("Focus on Honesty today.") postEx (by decide)⟩

/-- C4: the output normalizer with the 150-word ceiling splits on
whitespace runs; when the piece count exceeds 150 it returns exactly
the first 150 pieces joined by single spaces followed by the
ellipsis marker, and when the count is at most 150 it returns the
input byte-for-byte unchanged, hence is idempotent on such text. -/
theorem normalize150_truncation_and_idempotent (t : String) :
    ((jsSplitWs t).length ≤ 150 →
        normalize150 t = t ∧ normalize150 (normalize150 t) = normalize150 t) ∧
    (150 < (jsSplitWs t).length →
        normalize150 t = String.intercalate (" ") ((jsSplitWs t).take 150) ++ ("...")) := by
  constructor
  · intro h
    have h1 : normalize150 t = t := by
      show (if 150 < (jsSplitWs t).length then
              String.intercalate (" ") ((jsSplitWs t).take 150) ++ ("...")
            else t) = t
      rw [if_neg (by omega)]
    exact ⟨h1, by rw [h1, h1]⟩
  · intro h
    show (if 150 < (jsSplitWs t).length then
            String.intercalate (" ") ((jsSplitWs t).take 150) ++ ("...")
          else t) = String.intercalate (" ") ((jsSplitWs t).take 150) ++ ("...")
    rw [if_pos h]

/-- Closed instance of C4 on a two-word text: unchanged and
idempotent. -/
theorem normalize150_truncation_and_idempotent_witness :
    (jsSplitWs ("hello world")).length ≤ 150 ∧
    (normalize150 ("hello world") = ("hello world") ∧
     normalize150 (normalize150 ("hello world")) = normalize150 ("hello world")) :=
  ⟨by decide, (normalize150_truncation_and_idempotent ("hello world")).1 (by decide)⟩

/-- C5: on every valid request for which all model candidates fail,
both handlers respond with HTTP 200, success true, no error field,
the deterministic fallback text and the sentinel model "fallback". -/
theorem all_fail_yields_200_fallback (gen : String → GenOutcome)
    (h : ∀ m ∈ modelNames, (gen m).isErr = true)
    (b : DashboardBody) (an : List AnalysisItem) (pv : List Virtue) :
    (getDashboardPrompt (some b) gen).1
      = ⟨200, none, fallbackPrompt b.prioritizedVirtues (b.isFirstTime.getD false),
          ("fallback"), true⟩ ∧
    (getSummaryAnalysis (some ⟨some an, some pv⟩) gen).1
      = ⟨200, none, fallbackSummary pv, ("fallback"), true⟩ := by
  constructor
  · rw [dash_all_err b gen h]
  · rw [summary_all_err an pv gen h]

/-- Closed instance of C5 on the concrete request bodies with an
all-failure oracle. -/
theorem all_fail_yields_200_fallback_witness :
    (∀ m ∈ modelNames, (genAllErr m).isErr = true) ∧
    ((getDashboardPrompt (some dashBodyEx) genAllErr).1
        = ⟨200, none,
            fallbackPrompt dashBodyEx.prioritizedVirtues (dashBodyEx.isFirstTime.getD false),
            ("fallback"), true⟩ ∧
     (getSummaryAnalysis (some ⟨some analysesEx, some virtuesEx⟩) genAllErr).1
        = ⟨200, none, fallbackSummary virtuesEx, ("fallback"), true⟩) :=
  ⟨by decide,
   all_fail_yields_200_fallback genAllErr (by decide) dashBodyEx analysesEx virtuesEx⟩

/-- C6: when every listed attempt fails, the error the executor
retains for diagnostics is exactly the error of the last attempt in
candidate order, and no attempt error reaches the handler caller:
on total exhaustion the handler response is still status 200,
success true, with no error field. -/
theorem exhaustion_surfaces_last_error (norm : String → String) (le : Option String)
    (l : List (String × GenOutcome)) (m e : String)
    (h : ∀ p ∈ l, p.2.isErr = true) :
    (runModels norm le (l ++ [(m, GenOutcome.err e)])).lastError = some e ∧
    (∀ gen : String → GenOutcome, (∀ m' ∈ modelNames, (gen m').isErr = true) →
      ∀ b : DashboardBody,
        (getDashboardPrompt (some b) gen).1.status = 200 ∧
        (getDashboardPrompt (some b) gen).1.success = true ∧
        (getDashboardPrompt (some b) gen).1.errorMsg = none) := by
  constructor
  · have hall : ∀ p ∈ l ++ [(m, GenOutcome.err e)], p.2.isErr = true := by
      intro p hp
      rcases List.mem_append.mp hp with h1 | h2
      · exact h p h1
      · simp only [List.mem_singleton] at h2
        subst h2
        rfl
    rw [runModels_all_err norm (l ++ [(m, GenOutcome.err e)]) le hall]
    exact lastErrAcc_concat l le m e
  · intro gen hgen b
    rw [dash_all_err b gen hgen]
    exact ⟨rfl, rfl, rfl⟩

/-- Closed instance of C6: with two distinct earlier errors, the
retained error is the final candidate's. -/
theorem exhaustion_surfaces_last_error_witness :
    (∀ p ∈ preEx, p.2.isErr = true) ∧
    (runModels (fun s => s) none
        (preEx ++ [(("gemini-pro"), GenOutcome.err ("server overloaded"))])).lastError
      = some ("server overloaded") :=
  ⟨by decide,
   (exhaustion_surfaces_last_error (fun s => s) none preEx ("gemini-pro")
      ("server overloaded") (by decide)).1⟩

/-- C7: the context builder renders each prioritized virtue with the
display score `10 - defectIntensity` followed by ".0" (one decimal
place); it translates a stage-progress key `entityId-stageNumber`
via 1 to "Dismantling", 2 to "Building" and otherwise (hence 3) to
"Practicing"; and it substitutes the documented placeholder texts
when the virtue list, the progress map or the recent-update field is
missing. -/
theorem context_builder_rendering :
    (∀ (name vid : String) (d : Int) (i : Nat),
        virtueLine i ⟨name, vid, d⟩
          = toString (i + 1) ++ (". ") ++ name ++ (" (Score: ")
            ++ (toString (10 - d) ++ (".0")) ++ (")")) ∧
    (∀ (eid st status : String) (pv : Option (List Virtue)),
        ('-' : Char) ∉ eid.data → ('-' : Char) ∉ st.data →
        progressLine pv (eid ++ ("-") ++ st) status
          = virtueNameOf pv eid ++ (" - ")
            ++ (if st = ("1") then ("Dismantling")
                else if st = ("2") then ("Building") else ("Practicing"))
            ++ (": ") ++ status) ∧
    virtueListStr none = ("No assessment data available") ∧
    (∀ pv, progressSummaryStr pv none = ("No progress data available")) ∧
    recentUpdateStr none = ("No recent updates") := by
  refine ⟨?_, ?_, by decide, fun pv => rfl, by decide⟩
  · intro name vid d i
    rfl
  · intro eid st status pv h1 h2
    have hsplit := jsSplitDash_pair eid st h1 h2
    simp only [progressLine, entityIdOfKey, stageNameOfKey, hsplit]
    rfl

/-- Closed instance of C7 at the key "7-3" against a virtue list
with no entity "7". -/
theorem context_builder_rendering_witness :
    (('-' : Char) ∉ (("7") : String).data ∧ ('-' : Char) ∉ (("3") : String).data) ∧
    progressLine (some virtuesEx) (("7") ++ ("-") ++ ("3")) ("started")
      = virtueNameOf (some virtuesEx) ("7") ++ (" - ")
        ++ (if ("3") = ("1") then ("Dismantling")
            else if (("3") : String) = ("2") then ("Building") else ("Practicing"))
        ++ (": ") ++ ("started") :=
  ⟨⟨by decide, by decide⟩,
   context_builder_rendering.2.1 ("7") ("3") ("started") (some virtuesEx)
     (by decide) (by decide)⟩

/-- C10: every stage token other than "1" and "2" (including "3",
a malformed token, or a key with no second piece) renders the stage
name "Practicing", and a key whose entity id matches no prioritized
virtue renders the virtue name "Unknown". -/
theorem stage_and_virtue_fallthrough (key status : String) (pv : Option (List Virtue)) :
    ((jsSplitDash key)[1]? = none → stageNameOfKey key = ("Practicing")) ∧
    (∀ s, (jsSplitDash key)[1]? = some s → ¬ (s = ("1")) → ¬ (s = ("2")) →
        stageNameOfKey key = ("Practicing")) ∧
    ((pv.getD []).find? (fun v => v.virtueId == entityIdOfKey key) = none →
        virtueNameOf pv (entityIdOfKey key) = ("Unknown")) ∧
    progressLine pv key status
      = virtueNameOf pv (entityIdOfKey key) ++ (" - ") ++ stageNameOfKey key
        ++ (": ") ++ status := by
  refine ⟨?_, ?_, ?_, rfl⟩
  · intro h
    unfold stageNameOfKey
    rw [h]
  · intro s hs hs1 hs2
    unfold stageNameOfKey
    rw [hs]
    simp [hs1, hs2]
  · intro h
    unfold virtueNameOf
    rw [h]

/-- Closed instance of C10 at the key "9-3": stage token "3" renders
"Practicing" and the unmatched entity id "9" renders "Unknown". -/
theorem stage_and_virtue_fallthrough_witness :
    ((jsSplitDash ("9-3"))[1]? = some ("3") ∧
     ((some virtuesEx).getD []).find? (fun v => v.virtueId == entityIdOfKey ("9-3")) = none) ∧
    (stageNameOfKey ("9-3") = ("Practicing") ∧
     virtueNameOf (some virtuesEx) (entityIdOfKey ("9-3")) = ("Unknown")) :=
  ⟨⟨by decide, by decide⟩,
   ⟨(stage_and_virtue_fallthrough ("9-3") ("in progress") (some virtuesEx)).2.1 ("3")
      (by decide) (by decide) (by decide),
    (stage_and_virtue_fallthrough ("9-3") ("in progress") (some virtuesEx)).2.2.1
      (by decide)⟩⟩

/-- C8: a synthesis request whose body is missing or not an object,
or lacks an `analyses` array, or lacks a `prioritizedVirtues` array,
is answered with status 400 and the error message, and no model is
invoked (the attempted list is empty). -/
theorem summary_validation_400_no_invocation (gen : String → GenOutcome) :
    getSummaryAnalysis none gen
      = (⟨400, some invalidSummaryMsg, (""), (""), false⟩, []) ∧
    (∀ pv : Option (List Virtue),
        getSummaryAnalysis (some ⟨none, pv⟩) gen
          = (⟨400, some invalidSummaryMsg, (""), (""), false⟩, [])) ∧
    (∀ an : Option (List AnalysisItem),
        getSummaryAnalysis (some ⟨an, none⟩) gen
          = (⟨400, some invalidSummaryMsg, (""), (""), false⟩, [])) := by
  refine ⟨rfl, ?_, ?_⟩
  · intro pv
    cases pv <;> rfl
  · intro an
    cases an <;> rfl

/-- C9: on the synthesis endpoint a successful generation (valid
response with non-empty text) is returned unmodified whatever its
word count, while the single-recommendation endpoint returns the
same text through the 150-word normalizer. -/
theorem synthesis_text_unmodified (gen : String → GenOutcome) (pre post : List String)
    (m t : String) (an : List AnalysisItem) (pv : List Virtue) (b : DashboardBody)
    (hsplit : modelNames = pre ++ m :: post)
    (hpre : ∀ m' ∈ pre, (gen m').isErr = true)
    (hm : gen m = GenOutcome.ok t) (ht : t ≠ ("")) :
    (getSummaryAnalysis (some ⟨some an, some pv⟩) gen).1.summary = t ∧
    (getDashboardPrompt (some b) gen).1.prompt = normalize150 t := by
  constructor
  · rw [summary_first_ok an pv gen pre post m t hsplit hpre hm ht]
  · rw [dash_first_ok b gen pre post m t hsplit hpre hm ht]

/-- Closed instance of C9 with the third candidate succeeding. -/
theorem synthesis_text_unmodified_witness :
    (modelNames
        = [("gemini-2.5-flash-lite"), ("gemini-2.0-flash-lite")]
          ++ ("gemini-1.5-flash-lite") :: [("gemini-1.5-flash"), ("gemini-pro")] ∧
     genThirdOk ("gemini-1.5-flash-lite") = GenOutcome.ok ("Focus on Honesty today.")) ∧
    ((getSummaryAnalysis (some ⟨some analysesEx, some virtuesEx⟩) genThirdOk).1.summary
        = ("Focus on Honesty today.") ∧
     (getDashboardPrompt (some dashBodyEx) genThirdOk).1.prompt
        = normalize150 ("Focus on Honesty today.")) :=
  ⟨⟨by decide, by decide⟩,
   synthesis_text_unmodified genThirdOk
     [("gemini-2.5-flash-lite"), ("gemini-2.0-flash-lite")]
     [("gemini-1.5-flash"), ("gemini-pro")]
     ("gemini-1.5-flash-lite") ("Focus on Honesty today.")
     analysesEx virtuesEx dashBodyEx (by decide) (by decide) (by decide) (by decide)⟩

/-- C1 (code bug): on a valid request whose first candidate returns a
structurally valid response with EMPTY generated text, the handler
returns the deterministic fallback text while `model` names the
gemini candidate, not the sentinel "fallback" — the empty-text
success sets `successfulModel` and breaks the loop, then the
`!promptText` check substitutes the fallback text without resetting
the model (src/index.js lines 123-135 and 147-156); the same happens
on the synthesis endpoint. So the `model` field fails to name the
true source of the returned text. -/
theorem empty_text_misattributed :
    (getDashboardPrompt (some dashBodyEx) genFirstEmpty).1.prompt
      = fallbackPrompt (some virtuesEx) false ∧
    (getDashboardPrompt (some dashBodyEx) genFirstEmpty).1.model
      = ("gemini-2.5-flash-lite") ∧
    ¬ ((getDashboardPrompt (some dashBodyEx) genFirstEmpty).1.model = ("fallback")) ∧
    (getSummaryAnalysis (some ⟨some analysesEx, some virtuesEx⟩) genFirstEmpty).1.summary
      = fallbackSummary virtuesEx ∧
    (getSummaryAnalysis (some ⟨some analysesEx, some virtuesEx⟩) genFirstEmpty).1.model
      = ("gemini-2.5-flash-lite") :=
  ⟨by decide, by decide, by decide, by decide, by decide⟩

/-- C2 counterexample: the synthesis fallback on an EMPTY prioritized
virtue list interpolates the empty string into its template — the
output reads "... appear to be . Focusing ..." — so no generic
placeholder phrase is substituted on the synthesis endpoint. -/
theorem summary_fallback_empty_no_placeholder :
    fallbackSummary []
      = ("A full summary could not be generated at this time. Based on the data, the primary areas for development appear to be . Focusing on the root causes of challenges in these areas is a recommended next step.") := by
  decide

/-- C2 amended: both fallback responders are total and always produce
a non-empty message, and the single-recommendation endpoint
substitutes the generic placeholder "your priority virtue" when the
priority list is empty or absent; the synthesis endpoint produces
its fixed template with an empty virtue-name interpolation instead
of a placeholder. -/
theorem fallback_total_single_placeholder_only :
    (∀ (pv : Option (List Virtue)) (ift : Bool), 0 < (fallbackPrompt pv ift).length) ∧
    topVirtueName none = ("your priority virtue") ∧
    topVirtueName (some []) = ("your priority virtue") ∧
    (∀ ift, fallbackPrompt (some []) ift = fallbackPrompt none ift) ∧
    (∀ pv : List Virtue, 0 < (fallbackSummary pv).length) := by
  refine ⟨?_, by decide, by decide, ?_, ?_⟩
  · intro pv ift
    unfold fallbackPrompt
    rw [String.length_append, String.length_append]
    have h1 : 0 < (("Welcome to your virtue development journey! ") : String).length := by
      decide
    omega
  · intro ift
    cases ift <;> decide
  · intro pv
    unfold fallbackSummary
    rw [String.length_append, String.length_append]
    have h1 : 0 <
        (("A full summary could not be generated at this time. Based on the data, the primary areas for development appear to be ") : String).length := by
      decide
    omega
